import Mathlib

/-!
Verification development for the study-plan service
(src/src/services/studyPlanService.ts).

The service builds prompts from student state, calls a remote generation
endpoint, extracts/parses the response, and substitutes deterministic
fallback values when any step fails.  The embedding below translates the
source functions into Lean: the network call is modelled by an explicit
`FetchOutcome` parameter (the endpoint is an external collaborator), the
chapter catalog (loaded from a JSON data file outside this module) is a
`List Chapter` parameter, and the platform builtin `JSON.parse` is modelled
by a standard JSON grammar parser producing `Json` values.  JS numbers are
modelled by exact rationals; the one float-sensitive comparison
(`score / total_questions >= 0.7`) is modelled including the JS
`NaN`/`Infinity` cases for a zero divisor.
-/

set_option linter.unusedVariables false
set_option maxRecDepth 8000

namespace StudyPlanService

/-- Whitespace predicate used by `trim` and by the fence-stripping
regexes (`\s`); modelled as space, tab, newline, carriage return. -/
def isWS (c : Char) : Bool :=
  c = ' ' || c = '\t' || c = '\n' || c = '\r'

/-- JS `String.prototype.trim`: drop leading and trailing whitespace. -/
def trimChars (l : List Char) : List Char :=
  ((l.dropWhile isWS).reverse.dropWhile isWS).reverse

/-- First replace of the extraction step, `replace(/^```json\s*/i, "")`:
if the text starts with a backtick fence tagged `json` (case-insensitive),
drop the fence, the tag and the following whitespace run. -/
def stripJsonFence (l : List Char) : List Char :=
  match l with
  | '\x60' :: '\x60' :: '\x60' :: d0 :: d1 :: d2 :: d3 :: rest =>
    if (d0.toLower == 'j') && (d1.toLower == 's') && (d2.toLower == 'o')
        && (d3.toLower == 'n') then
      rest.dropWhile isWS
    else
      '\x60' :: '\x60' :: '\x60' :: d0 :: d1 :: d2 :: d3 :: rest
  | _ => l

/-- Second replace, `replace(/^```\s*/i, "")`: drop a leading bare fence
and the following whitespace run. -/
def stripBareFence (l : List Char) : List Char :=
  match l with
  | '\x60' :: '\x60' :: '\x60' :: rest => rest.dropWhile isWS
  | _ => l

/-- Third replace, `replace(/```$/i, "")`: drop a trailing fence. -/
def stripTrailingFence (l : List Char) : List Char :=
  match l.reverse with
  | '\x60' :: '\x60' :: '\x60' :: rest => rest.reverse
  | _ => l

/-- The full response-extraction step used by the two structured
operations: `content.trim()` followed by the three replaces and a final
`.trim()` (lines 58-59 and 250-251 of the source). -/
def extractContent (l : List Char) : List Char :=
  trimChars (stripTrailingFence (stripBareFence (stripJsonFence (trimChars l))))

/-- Tests whether a character list begins with a backtick. -/
def headIsBacktick : List Char → Bool
  | [] => false
  | c :: _ => c == '\x60'

/-- Tests whether a character list ends with a three-backtick fence. -/
def endsWithFence (l : List Char) : Bool :=
  match l.reverse with
  | '\x60' :: '\x60' :: '\x60' :: _ => true
  | _ => false

/-- Wraps a payload in a `json`-tagged code fence. -/
def wrapJsonFence (p : List Char) : List Char :=
  '\x60' :: '\x60' :: '\x60' :: 'j' :: 's' :: 'o' :: 'n' :: '\n'
    :: (p ++ ['\n', '\x60', '\x60', '\x60'])

/-- Wraps a payload in a bare code fence. -/
def wrapBareFence (p : List Char) : List Char :=
  '\x60' :: '\x60' :: '\x60' :: '\n' :: (p ++ ['\n', '\x60', '\x60', '\x60'])

/-- Tests whether a character list starts with a whitespace character. -/
def headIsWS : List Char → Bool
  | [] => false
  | c :: _ => isWS c

/-- Tests whether `needle` occurs at the start of `hay`. -/
def startsWithChars : List Char → List Char → Bool
  | [], _ => true
  | _ :: _, [] => false
  | c :: n, d :: h => c == d && startsWithChars n h

/-- Tests whether `needle` occurs anywhere inside `hay`. -/
def containsSub (needle hay : List Char) : Bool :=
  match hay with
  | [] => startsWithChars needle []
  | _ :: t => startsWithChars needle hay || containsSub needle t

/-! ## JSON values and the platform parser

`JSON.parse` is a platform builtin, not code of this repository; it is
modelled here by a recursive-descent parser for the standard JSON grammar
(objects, arrays, strings with escapes, numbers with fraction and
exponent, `true`/`false`/`null`).  Numbers are exact rationals.  A
`\uXXXX` escape is modelled as a single code point.
-/

/-- JSON values, as produced by the modelled `JSON.parse`. -/
inductive Json where
  | null : Json
  | bool : Bool → Json
  | num : ℚ → Json
  | str : List Char → Json
  | arr : List Json → Json
  | obj : List (List Char × Json) → Json

/-- Decimal digit value of a character, when it is a digit. -/
def digitVal (c : Char) : Option Nat :=
  if '0' ≤ c ∧ c ≤ '9' then some (c.toNat - '0'.toNat) else none

/-- Hexadecimal digit value of a character, when it is a hex digit. -/
def hexVal (c : Char) : Option Nat :=
  if '0' ≤ c ∧ c ≤ '9' then some (c.toNat - '0'.toNat)
  else if 'a' ≤ c ∧ c ≤ 'f' then some (c.toNat - 'a'.toNat + 10)
  else if 'A' ≤ c ∧ c ≤ 'F' then some (c.toNat - 'A'.toNat + 10)
  else none

/-- Splits a maximal run of decimal digits off the front of the input. -/
def takeDigits : List Char → List Nat × List Char
  | [] => ([], [])
  | c :: rest =>
    match digitVal c with
    | some d =>
      let pr := takeDigits rest
      (d :: pr.1, pr.2)
    | none => ([], c :: rest)

/-- Value of a list of decimal digits, most significant first. -/
def natOfDigits (ds : List Nat) : Nat :=
  ds.foldl (fun a d => a * 10 + d) 0

/-- Single-character JSON string escapes. -/
def escChar (c : Char) : Option Char :=
  if c = '"' then some '"'
  else if c = '\\' then some '\\'
  else if c = '/' then some '/'
  else if c = 'b' then some (Char.ofNat 8)
  else if c = 'f' then some (Char.ofNat 12)
  else if c = 'n' then some '\n'
  else if c = 'r' then some '\r'
  else if c = 't' then some '\t'
  else none

/-- Parses the remainder of a JSON string after the opening quote,
returning the decoded characters and the rest of the input. -/
def parseStringRest : Nat → List Char → Option (List Char × List Char)
  | 0, _ => none
  | _, [] => none
  | fuel + 1, c :: rest =>
    if c = '"' then some ([], rest)
    else if c = '\\' then
      match rest with
      | [] => none
      | e :: rest2 =>
        if e = 'u' then
          match rest2 with
          | h1 :: h2 :: h3 :: h4 :: rest3 =>
            match hexVal h1, hexVal h2, hexVal h3, hexVal h4 with
            | some a, some b, some c3, some d =>
              (parseStringRest fuel rest3).map
                (fun pr => (Char.ofNat (((a * 16 + b) * 16 + c3) * 16 + d) :: pr.1, pr.2))
            | _, _, _, _ => none
          | _ => none
        else
          match escChar e with
          | some ec => (parseStringRest fuel rest2).map (fun pr => (ec :: pr.1, pr.2))
          | none => none
    else (parseStringRest fuel rest).map (fun pr => (c :: pr.1, pr.2))

/-- Parses a JSON number (optional sign, integer part without leading
zeros, optional fraction, optional exponent). -/
def parseNumber (l : List Char) : Option (ℚ × List Char) :=
  let sgn := match l with
    | '-' :: rest => (true, rest)
    | _ => (false, l)
  let ip := takeDigits sgn.2
  if ip.1 = [] then none
  else if 1 < ip.1.length ∧ ip.1.headD 1 = 0 then none
  else
    let intPart : ℚ := (natOfDigits ip.1 : ℚ)
    let step2 : Option (ℚ × List Char) :=
      match ip.2 with
      | '.' :: rest =>
        let fp := takeDigits rest
        if fp.1 = [] then none
        else some (intPart + (natOfDigits fp.1 : ℚ) / ((10 : ℚ) ^ fp.1.length), fp.2)
      | _ => some (intPart, ip.2)
    match step2 with
    | none => none
    | some (mant, l3) =>
      let step3 : Option (ℚ × List Char) :=
        match l3 with
        | e :: rest =>
          if e = 'e' ∨ e = 'E' then
            let se := match rest with
              | '+' :: r => ((1 : Int), r)
              | '-' :: r => ((-1 : Int), r)
              | _ => ((1 : Int), rest)
            let ep := takeDigits se.2
            if ep.1 = [] then none
            else some (mant * (10 : ℚ) ^ (se.1 * (natOfDigits ep.1 : Int)), ep.2)
          else some (mant, l3)
        | [] => some (mant, l3)
      step3.map (fun pr => (if sgn.1 then -pr.1 else pr.1, pr.2))

mutual

/-- Parses one JSON value after skipping leading whitespace. -/
def parseVal : Nat → List Char → Option (Json × List Char)
  | 0, _ => none
  | fuel + 1, l0 =>
    let l := l0.dropWhile isWS
    match l with
    | '\x7b' :: rest =>
      let rest2 := rest.dropWhile isWS
      match rest2 with
      | '\x7d' :: rest3 => some (.obj [], rest3)
      | _ =>
        match parseMembers fuel rest2 with
        | some (ms, r) => some (.obj ms, r)
        | none => none
    | '[' :: rest =>
      let rest2 := rest.dropWhile isWS
      match rest2 with
      | ']' :: rest3 => some (.arr [], rest3)
      | _ =>
        match parseElems fuel rest2 with
        | some (es, r) => some (.arr es, r)
        | none => none
    | '"' :: rest =>
      match parseStringRest (rest.length + 1) rest with
      | some (s, r) => some (.str s, r)
      | none => none
    | 'n' :: 'u' :: 'l' :: 'l' :: rest => some (.null, rest)
    | 't' :: 'r' :: 'u' :: 'e' :: rest => some (.bool true, rest)
    | 'f' :: 'a' :: 'l' :: 's' :: 'e' :: rest => some (.bool false, rest)
    | _ => (parseNumber l).map (fun pr => (.num pr.1, pr.2))

/-- Parses the elements of a non-empty JSON array up to the closing
bracket. -/
def parseElems : Nat → List Char → Option (List Json × List Char)
  | 0, _ => none
  | fuel + 1, l =>
    match parseVal fuel l with
    | none => none
    | some (v, r) =>
      let r2 := r.dropWhile isWS
      match r2 with
      | ',' :: r3 =>
        match parseElems fuel r3 with
        | some (vs, r4) => some (v :: vs, r4)
        | none => none
      | ']' :: r3 => some ([v], r3)
      | _ => none

/-- Parses the members of a non-empty JSON object up to the closing
brace; the input starts at the first key. -/
def parseMembers : Nat → List Char → Option (List (List Char × Json) × List Char)
  | 0, _ => none
  | fuel + 1, l =>
    match l with
    | '"' :: rest =>
      match parseStringRest (rest.length + 1) rest with
      | none => none
      | some (k, r) =>
        let r2 := r.dropWhile isWS
        match r2 with
        | ':' :: r3 =>
          match parseVal fuel r3 with
          | none => none
          | some (v, r4) =>
            let r5 := r4.dropWhile isWS
            match r5 with
            | ',' :: r6 =>
              match parseMembers fuel (r6.dropWhile isWS) with
              | some (ms, r7) => some ((k, v) :: ms, r7)
              | none => none
            | '\x7d' :: r6 => some ([(k, v)], r6)
            | _ => none
        | _ => none
    | _ => none

end

/-- Model of the platform builtin `JSON.parse`: parse one value, allowing
surrounding whitespace, rejecting trailing garbage. -/
def parseJson (l : List Char) : Option Json :=
  let t := trimChars l
  match parseVal (2 * t.length + 2) t with
  | some (v, r) => if r.all isWS then some v else none
  | none => none

/-- Field lookup on a parsed JSON object (first match, like JS property
access on `JSON.parse` output with distinct keys). -/
def jsonField (j : Json) (key : String) : Option Json :=
  match j with
  | .obj kvs => (kvs.find? (fun kv => kv.1 == key.toList)).map (fun kv => kv.2)
  | _ => none

/-! ## Data model (from `../types` and the spec data model) -/

/-- A chapter record from the static chapter catalog. -/
structure Chapter where
  id : String
  chapter : String
  topics : List String
deriving DecidableEq

/-- Diagnostic results for a student.  Scores are JS numbers holding
non-negative integer counts; modelled as naturals. -/
structure DiagnosticResult where
  strengths : List String
  weaknesses : List String
  gaps : List String
  score : Nat
  total_questions : Nat
deriving DecidableEq

/-- A study plan, as built by the fallback synthesizer. -/
structure StudyPlan where
  chapter_id : String
  prerequisites : List String
  recommended_practice : List String
  estimated_time : Nat
  difficulty_level : String
deriving DecidableEq

/-- The JS object value of a study plan record, field order as in the
object literal at lines 78-89 of the source. -/
def StudyPlan.toJson (p : StudyPlan) : Json :=
  .obj [ (String.toList "chapter_id", .str p.chapter_id.toList),
         (String.toList "prerequisites", .arr (p.prerequisites.map (fun s => .str s.toList))),
         (String.toList "recommended_practice", .arr (p.recommended_practice.map (fun s => .str s.toList))),
         (String.toList "estimated_time", .num (p.estimated_time : ℚ)),
         (String.toList "difficulty_level", .str p.difficulty_level.toList) ]

/-- The only error the module raises: `throw new Error("Chapter not
found")` at line 14 of the source. -/
inductive ServiceError where
  | chapterNotFound : ServiceError
deriving DecidableEq

/-- Outcome of the single `fetch` exchange with the generation endpoint:
either the call (or reading its body) threw, or a response arrived with
an ok-flag and the optional `choices[0].message.content` string. -/
inductive FetchOutcome where
  | thrown : FetchOutcome
  | response (ok : Bool) (content : Option (List Char)) : FetchOutcome
deriving DecidableEq

/-- The content the success path acts on: present exactly when the
response is ok and `data?.choices?.[0]?.message?.content` is truthy (an
empty string is falsy in JS, hence treated as absent). -/
def contentOf : FetchOutcome → Option (List Char)
  | .thrown => none
  | .response ok c =>
    if ok then
      match c with
      | some s => if s = [] then none else some s
      | none => none
    else none

/-- `chaptersData.find(c => c.id === chapterId)` (line 12). -/
def findChapter (chapters : List Chapter) (chapterId : String) : Option Chapter :=
  chapters.find? (fun c => c.id == chapterId)

/-- Models the JS float comparison
`diagnosticResult.score / diagnosticResult.total_questions >= 0.7`
(lines 74-76) on natural operands: for a zero divisor JS produces `NaN`
(score 0, comparison false) or `Infinity` (score positive, comparison
true); otherwise the exact rational comparison, which coincides with the
double computation on all realistic score ranges. -/
def ratioAtLeast07 (score total : Nat) : Bool :=
  if total = 0 then decide (0 < score) else decide (7 * total ≤ 10 * score)

/-- The fallback study plan (lines 69-89 of the source). -/
def fallbackStudyPlan (chapterId : String) (d : DiagnosticResult) : StudyPlan :=
  let prerequisites :=
    if 0 < d.gaps.length then d.gaps.take 3
    else ["Basic arithmetic", "Number concepts"]
  let difficultyLevel :=
    if ratioAtLeast07 d.score d.total_questions then "intermediate" else "beginner"
  { chapter_id := chapterId
    prerequisites := prerequisites
    recommended_practice :=
      [ "Complete 10 practice problems daily",
        "Review concept explanations",
        "Take mini-quizzes to test understanding",
        "Practice with real-world examples" ]
    estimated_time := if difficultyLevel = "beginner" then 180 else 120
    difficulty_level := difficultyLevel }

/-- `generatePersonalizedStudyPlan` (lines 7-90).  The second component
records whether the generation endpoint was called: the unknown-chapter
throw happens before the `fetch`.  On a usable response the parsed JSON
value is returned as-is (no field validation); on any failure the
fallback plan object is returned. -/
def generatePersonalizedStudyPlan (chapters : List Chapter) (chapterId : String)
    (d : DiagnosticResult) (net : FetchOutcome) :
    Except ServiceError Json × Bool :=
  match findChapter chapters chapterId with
  | none => (.error .chapterNotFound, false)
  | some _ =>
    match contentOf net with
    | some content =>
      match parseJson (extractContent content) with
      | some j => (.ok j, true)
      | none => (.ok (fallbackStudyPlan chapterId d).toJson, true)
    | none => (.ok (fallbackStudyPlan chapterId d).toJson, true)

/-- The fallback explanation paragraph (lines 136-143). -/
def fallbackExplanation (topic : String) : String :=
  "Let\x27s explore " ++ topic ++ " together! 🌟\n\nThis is an important concept that will help you understand mathematics better. Think of it as building blocks - each piece helps you construct something amazing!\n\nWe\x27ll start with the basics and gradually build up your understanding. Don\x27t worry if it seems challenging at first - that\x27s completely normal! 💪\n\nRemember: every expert was once a beginner. You\x27re on an exciting journey of discovery! 🚀"

/-- `generateChapterExplanation` (lines 92-144): on a usable response the
raw content is returned after `trim()` only (no fence stripping); else
the fixed templated paragraph. -/
def generateChapterExplanation (chapterId : String) (topic : String)
    (studentLevel : String) (net : FetchOutcome) : String :=
  match contentOf net with
  | some content => String.mk (trimChars content)
  | none => fallbackExplanation topic

/-- The fixed pool of fallback notifications (lines 193-198). -/
def fallbackNotifications : List String :=
  [ "You\x27re making great progress! 🌟 Keep up the amazing work!",
    "Ready for your next challenge? 🚀 Let\x27s keep learning!",
    "Fantastic effort today! 💪 Tomorrow brings new discoveries!",
    "You\x27re on fire! 🔥 Your dedication is paying off!" ]

/-- `Math.floor(Math.random() * fallbackNotifications.length)` (line
200), with the `Math.random()` draw `r` passed in explicitly.  For
`0 ≤ r < 1` the scaling by 4 is exact in doubles, so the rational model
agrees with the JS computation. -/
def notificationIndex (r : ℚ) : Nat :=
  (Int.floor (r * (fallbackNotifications.length : ℚ))).toNat

/-- `generateSmartNotification` (lines 146-201): on a usable response the
raw content is returned after `trim()` only; else a random member of the
fixed pool. -/
def generateSmartNotification (net : FetchOutcome) (r : ℚ) : String :=
  match contentOf net with
  | some content => String.mk (trimChars content)
  | none => fallbackNotifications.getD (notificationIndex r) ""

/-- UTF-16 length of a string, matching the JS `String.prototype.length`
used by the under-100-characters notification target (astral code points
such as emoji count as two units). -/
def utf16Length (s : String) : Nat :=
  (s.toList.map (fun c => if 0x10000 ≤ c.toNat then 2 else 1)).sum

/-! ## Prompt construction (PromptBuilder) -/

/-- `Array.prototype.join(", ")` on the interpolated lists. -/
def joinComma (l : List String) : String :=
  String.intercalate ", " l

/-- Strengths field of the study-plan prompt (line 22): the raw
comma-join, with no placeholder for an empty list. -/
def planStrengthsText (d : DiagnosticResult) : String :=
  joinComma d.strengths

/-- Strengths field of the study-content prompt (line 215):
`userStrengths.join(", ") || "Building foundation"` (the JS `||` takes
the placeholder exactly when the join is the empty string). -/
def contentStrengthsText (userStrengths : List String) : String :=
  if joinComma userStrengths = "" then "Building foundation" else joinComma userStrengths

/-- Weaknesses field of the study-content prompt (line 216):
`userWeaknesses.join(", ") || "None identified"`. -/
def contentWeaknessesText (userWeaknesses : List String) : String :=
  if joinComma userWeaknesses = "" then "None identified" else joinComma userWeaknesses

/-- Fixed segments of the study-plan prompt template (lines 18-41), in
order of appearance between the interpolated values. -/
def planPromptA : String :=
  "Create a personalized study plan for this student based on their diagnostic results.\n\nChapter: "

/-- Study-plan prompt segment before the topics list. -/
def planPromptB : String := "\nTopics: "

/-- Study-plan prompt segment before the strengths list. -/
def planPromptC : String := "\nStudent\x27s Strengths: "

/-- Study-plan prompt segment before the weaknesses list. -/
def planPromptD : String := "\nStudent\x27s Weaknesses: "

/-- Study-plan prompt segment before the gaps list. -/
def planPromptE : String := "\nStudent\x27s Gaps: "

/-- Study-plan prompt segment before the score. -/
def planPromptF : String := "\nDiagnostic Score: "

/-- Study-plan prompt segment before the chapter id in the JSON example. -/
def planPromptG : String :=
  "\n\nGenerate a study plan as JSON with this structure:\n\x7b\n  \"chapter_id\": \""

/-- Study-plan prompt tail after the chapter id. -/
def planPromptH : String :=
  "\",\n  \"prerequisites\": [\"concept1\", \"concept2\"],\n  \"recommended_practice\": [\"practice1\", \"practice2\", \"practice3\"],\n  \"estimated_time\": 120,\n  \"difficulty_level\": \"beginner\"\n\x7d\n\nPrerequisites should be concepts the student needs to review first.\nRecommended practice should be specific, actionable study activities.\nEstimated time should be in minutes for completing this chapter.\nDifficulty level should be \"beginner\", \"intermediate\", or \"advanced\" based on student\x27s readiness.\n\nReturn only the JSON object."

/-- The study-plan prompt template (lines 18-41): the fixed segments with
the student state interpolated between them. -/
def studyPlanPrompt (ch : Chapter) (chapterId : String) (d : DiagnosticResult) : String :=
  planPromptA ++ ch.chapter
    ++ planPromptB ++ joinComma ch.topics
    ++ planPromptC ++ planStrengthsText d
    ++ planPromptD ++ joinComma d.weaknesses
    ++ planPromptE ++ joinComma d.gaps
    ++ planPromptF ++ toString d.score ++ "/" ++ toString d.total_questions
    ++ planPromptG ++ chapterId ++ planPromptH

/-- Fixed segments of the study-content prompt template (lines 211-235). -/
def contentPromptA : String :=
  "You are a friendly math mentor creating personalized study content for a student.\n\nChapter: "

/-- Study-content prompt segment before the user level. -/
def contentPromptB : String := "\nStudent Level: "

/-- Study-content prompt segment before the strengths field. -/
def contentPromptC : String := "\nStudent\x27s Strengths: "

/-- Study-content prompt segment before the weaknesses field. -/
def contentPromptD : String := "\nStudent\x27s Weaknesses: "

/-- Study-content prompt tail after the weaknesses field. -/
def contentPromptE : String :=
  "\n\nCreate personalized study content for 4 key topics in this chapter. Return as JSON object:\n\x7b\n  \"Introduction\": \"Engaging introduction content...\",\n  \"Core Concepts\": \"Core concepts explanation...\",\n  \"Problem Solving\": \"Problem solving strategies...\",\n  \"Practice & Review\": \"Practice and review guidance...\"\n\x7d\n\nEach content section should:\n- Be 2-3 paragraphs long\n- Use encouraging, mentor-like tone\n- Address student\x27s specific level and needs\n- Include practical examples and analogies\n- Use emojis naturally\n- Build confidence while being educational\n- Reference their strengths and help with weaknesses\n\nReturn only the JSON object."

/-- The study-content prompt template (lines 211-235). -/
def studyContentPrompt (chapterName : String) (userLevel : String)
    (userStrengths userWeaknesses : List String) : String :=
  contentPromptA ++ chapterName
    ++ contentPromptB ++ userLevel
    ++ contentPromptC ++ contentStrengthsText userStrengths
    ++ contentPromptD ++ contentWeaknessesText userWeaknesses
    ++ contentPromptE

/-- The fallback study-content map (lines 264-270): the four fixed
section keys, each a template interpolating the chapter name and
conditionally the first strength or weakness. -/
def fallbackStudyContent (chapterName : String)
    (userWeaknesses userStrengths : List String) : Json :=
  .obj
    [ (String.toList "Introduction",
        .str (String.toList ("Welcome to " ++ chapterName ++ "! 🌟\n\nThis chapter will build on your existing knowledge and introduce exciting new concepts. "
          ++ (match userStrengths with
              | s :: _ => "Your strength in " ++ s ++ " will be very helpful here!"
              | [] => "We\x27ll start with the basics and build up your understanding step by step.")
          ++ "\n\nGet ready for an amazing learning adventure! 🚀"))),
      (String.toList "Core Concepts",
        .str (String.toList ("Let\x27s dive into the heart of " ++ chapterName ++ "! 💡\n\nWe\x27ll explore the fundamental ideas that make this topic so important in mathematics. "
          ++ (match userWeaknesses with
              | w :: _ => "Don\x27t worry about " ++ w ++ " - we\x27ll work on that together!"
              | [] => "You\x27re well-prepared for these concepts!")
          ++ "\n\nRemember, every expert was once a beginner. Take your time and enjoy the process! 📚"))),
      (String.toList "Problem Solving",
        .str (String.toList "Now for the exciting part - solving problems! 🎯\n\nWe\x27ll learn strategies and techniques that will make you confident in tackling any question. Practice makes perfect, and every mistake is a learning opportunity.\n\nYou\x27ve got this! Let\x27s turn challenges into victories! 💪")),
      (String.toList "Practice & Review",
        .str (String.toList ("Time to reinforce your learning! ⭐\n\nRegular practice and review will help cement these concepts in your mind. "
          ++ (match userStrengths with
              | s :: _ => "Use your strength in " ++ s ++ " to build confidence!"
              | [] => "Focus on understanding rather than memorizing.")
          ++ "\n\nCelebrate every small win - you\x27re making amazing progress! 🎉"))) ]

/-- `generatePersonalizedStudyContent` (lines 203-271): on a usable
response the parsed JSON value is returned as-is; a parse error (inner
catch) or any fetch failure yields the fallback content map.  The
`chapterId` and `userLevel` arguments feed only the prompt. -/
def generatePersonalizedStudyContent (chapterId : String) (chapterName : String)
    (userLevel : String) (userWeaknesses userStrengths : List String)
    (net : FetchOutcome) : Json :=
  match contentOf net with
  | some content =>
    match parseJson (extractContent content) with
    | some j => j
    | none => fallbackStudyContent chapterName userWeaknesses userStrengths
  | none => fallbackStudyContent chapterName userWeaknesses userStrengths

/-- Holds when `generatePersonalizedStudyPlan` takes its fallback branch
for the given endpoint outcome: fetch failure, non-ok status, absent or
empty content, or content whose extracted text fails to parse. -/
def planFallbackTaken (net : FetchOutcome) : Bool :=
  match contentOf net with
  | none => true
  | some c => (parseJson (extractContent c)).isNone

/-! ## Theorems -/

/-- C1: for every chapterId with a matching chapter and every
diagnosticResult, if the generation endpoint call fails (network error,
non-success status, or missing/empty content), the study-plan operation
returns exactly the fallback StudyPlan, whose prerequisites are the first
3 gaps (or the fixed two-item default when gaps is empty), whose
difficulty_level is "intermediate" exactly when score/total_questions is
at least 0.7 and "beginner" otherwise, whose recommended_practice is the
fixed four-item list, and whose estimated_time is 180 for "beginner" and
120 otherwise. -/
theorem studyPlan_endpoint_failure_returns_fallback
    (chapters : List Chapter) (chapterId : String) (d : DiagnosticResult)
    (net : FetchOutcome) (ch : Chapter)
    (hch : findChapter chapters chapterId = some ch)
    (hfail : contentOf net = none) :
    (generatePersonalizedStudyPlan chapters chapterId d net).1
        = .ok (fallbackStudyPlan chapterId d).toJson
    ∧ (fallbackStudyPlan chapterId d).prerequisites
        = (if d.gaps = [] then ["Basic arithmetic", "Number concepts"] else d.gaps.take 3)
    ∧ (fallbackStudyPlan chapterId d).difficulty_level
        = (if ratioAtLeast07 d.score d.total_questions then "intermediate" else "beginner")
    ∧ (fallbackStudyPlan chapterId d).recommended_practice
        = [ "Complete 10 practice problems daily",
            "Review concept explanations",
            "Take mini-quizzes to test understanding",
            "Practice with real-world examples" ]
    ∧ (fallbackStudyPlan chapterId d).estimated_time
        = (if (fallbackStudyPlan chapterId d).difficulty_level = "beginner" then 180 else 120) := by
  refine ⟨?_, ?_, rfl, rfl, rfl⟩
  · simp [generatePersonalizedStudyPlan, hch, hfail]
  · cases hg : d.gaps with
    | nil => simp [fallbackStudyPlan, hg]
    | cons a t => simp [fallbackStudyPlan, hg]

/-- Witness for C1 at the spec example: gaps
["long division", "carrying"], score 3 of 10, endpoint unreachable; the
fallback plan has those prerequisites, difficulty "beginner" and
estimated_time 180. -/
theorem studyPlan_endpoint_failure_returns_fallback_witness :
    findChapter [⟨"ch1", "Arithmetic", ["Addition"]⟩] "ch1"
        = some ⟨"ch1", "Arithmetic", ["Addition"]⟩
    ∧ contentOf .thrown = none
    ∧ (generatePersonalizedStudyPlan [⟨"ch1", "Arithmetic", ["Addition"]⟩] "ch1"
          ⟨[], ["fractions"], ["long division", "carrying"], 3, 10⟩ .thrown).1
        = .ok (fallbackStudyPlan "ch1"
            ⟨[], ["fractions"], ["long division", "carrying"], 3, 10⟩).toJson
    ∧ (fallbackStudyPlan "ch1"
          ⟨[], ["fractions"], ["long division", "carrying"], 3, 10⟩).prerequisites
        = ["long division", "carrying"]
    ∧ (fallbackStudyPlan "ch1"
          ⟨[], ["fractions"], ["long division", "carrying"], 3, 10⟩).difficulty_level
        = "beginner"
    ∧ (fallbackStudyPlan "ch1"
          ⟨[], ["fractions"], ["long division", "carrying"], 3, 10⟩).estimated_time
        = 180 := by
  have h := studyPlan_endpoint_failure_returns_fallback
      [⟨"ch1", "Arithmetic", ["Addition"]⟩] "ch1"
      ⟨[], ["fractions"], ["long division", "carrying"], 3, 10⟩ .thrown
      ⟨"ch1", "Arithmetic", ["Addition"]⟩ rfl rfl
  exact ⟨rfl, rfl, h.1, by decide, by decide, by decide⟩

/-- C2: if the endpoint returns syntactically invalid structured content,
both structured operations return their fallback values; no parse or
generation error escapes — with the chapter present, the study-plan
operation succeeds for every endpoint outcome, so only the
chapter-not-found error can escape the module. -/
theorem structured_ops_absorb_parse_errors
    (chapters : List Chapter) (chapterId : String) (d : DiagnosticResult)
    (net : FetchOutcome) (chapterName userLevel : String)
    (uw us : List String) (content : List Char) (ch : Chapter)
    (hch : findChapter chapters chapterId = some ch)
    (hnet : contentOf net = some content)
    (hpar : parseJson (extractContent content) = none) :
    (generatePersonalizedStudyPlan chapters chapterId d net).1
        = .ok (fallbackStudyPlan chapterId d).toJson
    ∧ generatePersonalizedStudyContent chapterId chapterName userLevel uw us net
        = fallbackStudyContent chapterName uw us
    ∧ (∀ net2 : FetchOutcome, ∃ j : Json,
        (generatePersonalizedStudyPlan chapters chapterId d net2).1 = .ok j) := by
  refine ⟨?_, ?_, ?_⟩
  · simp [generatePersonalizedStudyPlan, hch, hnet, hpar]
  · simp [generatePersonalizedStudyContent, hnet, hpar]
  · intro net2
    cases hc : contentOf net2 with
    | none =>
      exact ⟨(fallbackStudyPlan chapterId d).toJson,
        by simp [generatePersonalizedStudyPlan, hch, hc]⟩
    | some c2 =>
      cases hp : parseJson (extractContent c2) with
      | none =>
        exact ⟨(fallbackStudyPlan chapterId d).toJson,
          by simp [generatePersonalizedStudyPlan, hch, hc, hp]⟩
      | some j => exact ⟨j, by simp [generatePersonalizedStudyPlan, hch, hc, hp]⟩

/-- Witness for C2: the endpoint answers with the unparseable text
"not json"; both structured operations return their fallbacks. -/
theorem structured_ops_absorb_parse_errors_witness :
    contentOf (.response true (some (String.toList "not json")))
        = some (String.toList "not json")
    ∧ parseJson (extractContent (String.toList "not json")) = none
    ∧ (generatePersonalizedStudyPlan [⟨"c1", "Algebra", ["x"]⟩] "c1" ⟨[], [], [], 0, 1⟩
          (.response true (some (String.toList "not json")))).1
        = .ok (fallbackStudyPlan "c1" ⟨[], [], [], 0, 1⟩).toJson
    ∧ generatePersonalizedStudyContent "c1" "Algebra" "beginner" [] []
          (.response true (some (String.toList "not json")))
        = fallbackStudyContent "Algebra" [] [] := by
  have h := structured_ops_absorb_parse_errors
      [⟨"c1", "Algebra", ["x"]⟩] "c1" ⟨[], [], [], 0, 1⟩
      (.response true (some (String.toList "not json"))) "Algebra" "beginner" [] []
      (String.toList "not json") ⟨"c1", "Algebra", ["x"]⟩ rfl rfl rfl
  exact ⟨rfl, rfl, h.1, h.2.1⟩

/-- C3: for a chapterId with no matching chapter, the study-plan
operation raises chapter-not-found and does not call the generation
endpoint (the called-flag is false for every endpoint outcome). -/
theorem studyPlan_unknown_chapter_fails_without_call
    (chapters : List Chapter) (chapterId : String) (d : DiagnosticResult)
    (net : FetchOutcome)
    (h : findChapter chapters chapterId = none) :
    generatePersonalizedStudyPlan chapters chapterId d net
      = (.error .chapterNotFound, false) := by
  simp [generatePersonalizedStudyPlan, h]

/-- Witness for C3: the empty catalog has no chapter "x". -/
theorem studyPlan_unknown_chapter_fails_without_call_witness :
    findChapter [] "x" = none
    ∧ generatePersonalizedStudyPlan [] "x" ⟨[], [], [], 0, 0⟩ .thrown
        = (.error .chapterNotFound, false) :=
  ⟨rfl, studyPlan_unknown_chapter_fails_without_call [] "x" ⟨[], [], [], 0, 0⟩ .thrown rfl⟩

/-- C6: with total_questions equal to 0 and the data-model invariant
score less than or equal to total_questions, the fallback difficulty is
"beginner" and the estimated time is 180 (the JS division produces NaN,
whose comparison with 0.7 is false). -/
theorem studyPlan_fallback_zero_total_is_beginner
    (chapterId : String) (d : DiagnosticResult)
    (h0 : d.total_questions = 0) (hinv : d.score ≤ d.total_questions) :
    (fallbackStudyPlan chapterId d).difficulty_level = "beginner"
    ∧ (fallbackStudyPlan chapterId d).estimated_time = 180 := by
  have hs : d.score = 0 := by omega
  have hr : ratioAtLeast07 d.score d.total_questions = false := by
    simp [ratioAtLeast07, h0, hs]
  exact ⟨by simp [fallbackStudyPlan, hr], by simp [fallbackStudyPlan, hr]⟩

/-- Witness for C6: a diagnostic with score 0 of 0 questions. -/
theorem studyPlan_fallback_zero_total_is_beginner_witness :
    (⟨[], [], [], 0, 0⟩ : DiagnosticResult).total_questions = 0
    ∧ (fallbackStudyPlan "c1" ⟨[], [], [], 0, 0⟩).difficulty_level = "beginner"
    ∧ (fallbackStudyPlan "c1" ⟨[], [], [], 0, 0⟩).estimated_time = 180 := by
  have h := studyPlan_fallback_zero_total_is_beginner "c1" ⟨[], [], [], 0, 0⟩ rfl
      (Nat.le_refl 0)
  exact ⟨rfl, h.1, h.2⟩

/-- C4 counterexample: the claim quantifies over every endpoint response,
but the generated path returns the parsed object unvalidated.  Here the
endpoint answers with a JSON object whose estimated_time is 0 (not
positive) and whose difficulty_level is "expert" (not one of the three
allowed values), and that object is returned as-is. -/
theorem studyPlan_generated_path_unvalidated :
    (generatePersonalizedStudyPlan [⟨"c1", "Algebra", ["x"]⟩] "c1" ⟨[], [], [], 0, 1⟩
        (.response true (some (String.toList
          "\x7b\"estimated_time\": 0, \"difficulty_level\": \"expert\"\x7d")))).1
      = .ok (Json.obj
          [ (String.toList "estimated_time", .num 0),
            (String.toList "difficulty_level", .str (String.toList "expert")) ])
    ∧ jsonField (Json.obj
          [ (String.toList "estimated_time", .num 0),
            (String.toList "difficulty_level", .str (String.toList "expert")) ])
        "estimated_time" = some (.num 0) :=
  ⟨rfl, rfl⟩

/-- C4 amended: whenever the study-plan operation takes its fallback path
(fetch failure, non-ok status, missing/empty content, or unparseable
content), the returned plan is the fallback plan, whose estimated_time is
positive and whose difficulty_level is one of the three allowed values;
on the generated path the parsed object is returned without validation. -/
theorem studyPlan_fallback_path_is_valid_plan
    (chapters : List Chapter) (chapterId : String) (d : DiagnosticResult)
    (net : FetchOutcome) (ch : Chapter)
    (hch : findChapter chapters chapterId = some ch)
    (hfb : planFallbackTaken net = true) :
    (generatePersonalizedStudyPlan chapters chapterId d net).1
        = .ok (fallbackStudyPlan chapterId d).toJson
    ∧ 0 < (fallbackStudyPlan chapterId d).estimated_time
    ∧ (fallbackStudyPlan chapterId d).difficulty_level
        ∈ (["beginner", "intermediate", "advanced"] : List String) := by
  refine ⟨?_, ?_, ?_⟩
  · unfold planFallbackTaken at hfb
    cases hc : contentOf net with
    | none => simp [generatePersonalizedStudyPlan, hch, hc]
    | some c =>
      rw [hc] at hfb
      cases hp : parseJson (extractContent c) with
      | none => simp [generatePersonalizedStudyPlan, hch, hc, hp]
      | some j => simp [hp] at hfb
  · cases hr : ratioAtLeast07 d.score d.total_questions with
    | false => simp [fallbackStudyPlan, hr]
    | true => simp [fallbackStudyPlan, hr]
  · cases hr : ratioAtLeast07 d.score d.total_questions with
    | false => simp [fallbackStudyPlan, hr]
    | true => simp [fallbackStudyPlan, hr]

/-- Witness for the amended C4: endpoint unreachable, score 8 of 10; the
fallback plan is returned and its fields are in range. -/
theorem studyPlan_fallback_path_is_valid_plan_witness :
    findChapter [⟨"c1", "Algebra", ["x"]⟩] "c1" = some ⟨"c1", "Algebra", ["x"]⟩
    ∧ planFallbackTaken .thrown = true
    ∧ (generatePersonalizedStudyPlan [⟨"c1", "Algebra", ["x"]⟩] "c1"
          ⟨[], [], [], 8, 10⟩ .thrown).1
        = .ok (fallbackStudyPlan "c1" ⟨[], [], [], 8, 10⟩).toJson
    ∧ 0 < (fallbackStudyPlan "c1" ⟨[], [], [], 8, 10⟩).estimated_time
    ∧ (fallbackStudyPlan "c1" ⟨[], [], [], 8, 10⟩).difficulty_level
        ∈ (["beginner", "intermediate", "advanced"] : List String) := by
  have h := studyPlan_fallback_path_is_valid_plan [⟨"c1", "Algebra", ["x"]⟩] "c1"
      ⟨[], [], [], 8, 10⟩ .thrown ⟨"c1", "Algebra", ["x"]⟩ rfl rfl
  exact ⟨rfl, rfl, h.1, h.2.1, h.2.2⟩

/-- C9: when the endpoint call fails, the notification operation returns
the pool entry selected by flooring the scaled random draw; the result is
always a member of the fixed four-string pool, and for each index the set
of draws selecting it is exactly the interval of width 1/4 starting at
i/4 — a uniform draw over the pool for a uniform `Math.random()`. -/
theorem notification_fallback_uniform_from_pool
    (net : FetchOutcome) (r : ℚ)
    (hfail : contentOf net = none) (h0 : 0 ≤ r) (h1 : r < 1) :
    generateSmartNotification net r
        = fallbackNotifications.getD (notificationIndex r) ""
    ∧ generateSmartNotification net r ∈ fallbackNotifications
    ∧ (∀ i : Nat, i < 4 →
        (notificationIndex r = i ↔ ((i : ℚ) / 4 ≤ r ∧ r < ((i : ℚ) + 1) / 4))) := by
  have hidx : notificationIndex r = (Int.floor (r * 4)).toNat := by
    norm_num [notificationIndex, fallbackNotifications]
  have hnn : (0 : ℤ) ≤ Int.floor (r * 4) := Int.floor_nonneg.mpr (by positivity)
  have hlt4 : Int.floor (r * 4) < 4 := by
    have h4 : r * 4 < 4 := by linarith
    exact Int.floor_lt.mpr (by push_cast; linarith)
  have hres : generateSmartNotification net r
      = fallbackNotifications.getD (notificationIndex r) "" := by
    simp [generateSmartNotification, hfail]
  refine ⟨hres, ?_, ?_⟩
  · rw [hres]
    have hb : notificationIndex r < 4 := by rw [hidx]; omega
    set n := notificationIndex r with hn
    interval_cases n <;> decide
  · intro i hi
    rw [hidx]
    have h2 : (Int.floor (r * 4)).toNat = i ↔ Int.floor (r * 4) = (i : ℤ) := by omega
    rw [h2, Int.floor_eq_iff]
    push_cast
    constructor
    · rintro ⟨ha, hb⟩
      constructor <;> linarith
    · rintro ⟨ha, hb⟩
      constructor <;> linarith

/-- Witness for C9 at the draw 1/2 with the endpoint unreachable. -/
theorem notification_fallback_uniform_from_pool_witness :
    contentOf .thrown = none
    ∧ (0 : ℚ) ≤ 1 / 2
    ∧ (1 / 2 : ℚ) < 1
    ∧ (generateSmartNotification .thrown (1 / 2)
          = fallbackNotifications.getD (notificationIndex (1 / 2)) ""
        ∧ generateSmartNotification .thrown (1 / 2) ∈ fallbackNotifications
        ∧ (∀ i : Nat, i < 4 →
            (notificationIndex (1 / 2) = i
              ↔ ((i : ℚ) / 4 ≤ 1 / 2 ∧ (1 / 2 : ℚ) < ((i : ℚ) + 1) / 4)))) :=
  ⟨rfl, by norm_num, by norm_num,
    notification_fallback_uniform_from_pool .thrown (1 / 2) rfl (by norm_num) (by norm_num)⟩

/-- C10: every string in the notification fallback pool is under 100
characters in the JS sense (UTF-16 units, astral emoji counting as two),
so the fallback path always meets the under-100-character target. -/
theorem fallback_notifications_under_100_chars :
    fallbackNotifications.all (fun s => decide (utf16Length s < 100)) = true := by
  decide

/-- C7 counterexample: with empty strengths, the study-plan prompt
interpolates the empty string — the strengths label is immediately
followed by the weaknesses line — and contains no placeholder phrase. -/
theorem plan_prompt_empty_list_no_placeholder :
    containsSub (String.toList "Strengths: \nStudent")
        (String.toList (studyPlanPrompt ⟨"c1", "Algebra", ["x"]⟩ "c1"
          ⟨[], ["w"], ["g"], 3, 10⟩)) = true
    ∧ containsSub (String.toList "None identified")
        (String.toList (studyPlanPrompt ⟨"c1", "Algebra", ["x"]⟩ "c1"
          ⟨[], ["w"], ["g"], 3, 10⟩)) = false
    ∧ containsSub (String.toList "Building foundation")
        (String.toList (studyPlanPrompt ⟨"c1", "Algebra", ["x"]⟩ "c1"
          ⟨[], ["w"], ["g"], 3, 10⟩)) = false :=
  ⟨rfl, rfl, rfl⟩

/-- C7 amended: only the study-content prompt substitutes placeholder
phrases ("Building foundation" for empty strengths, "None identified"
for empty weaknesses); the study-plan prompt interpolates the raw
comma-join, which is the empty string for an empty list, so its
strengths label is directly followed by the weaknesses label. -/
theorem content_prompt_substitutes_placeholders
    (chapterName userLevel : String) (uw : List String)
    (ch : Chapter) (chapterId : String) (d : DiagnosticResult)
    (hd : d.strengths = []) :
    contentStrengthsText [] = "Building foundation"
    ∧ contentWeaknessesText [] = "None identified"
    ∧ (∃ x y, studyContentPrompt chapterName userLevel [] uw
        = x ++ "Building foundation" ++ y)
    ∧ planStrengthsText d = ""
    ∧ (∃ x y, studyPlanPrompt ch chapterId d
        = x ++ (planPromptC ++ planPromptD) ++ y) := by
  have hps : planStrengthsText d = "" := by
    unfold planStrengthsText joinComma
    rw [hd]
    rfl
  have hbf : contentStrengthsText [] = "Building foundation" := rfl
  refine ⟨rfl, rfl, ?_, hps, ?_⟩
  · refine ⟨contentPromptA ++ chapterName ++ contentPromptB ++ userLevel ++ contentPromptC,
      contentPromptD ++ contentWeaknessesText uw ++ contentPromptE, ?_⟩
    simp [studyContentPrompt, hbf, String.append_assoc]
  · refine ⟨planPromptA ++ ch.chapter ++ planPromptB ++ joinComma ch.topics,
      joinComma d.weaknesses ++ planPromptE ++ joinComma d.gaps ++ planPromptF
        ++ toString d.score ++ "/" ++ toString d.total_questions ++ planPromptG
        ++ chapterId ++ planPromptH, ?_⟩
    simp [studyPlanPrompt, hps, String.append_assoc]

/-- Witness for the amended C7 at concrete inputs with empty lists. -/
theorem content_prompt_substitutes_placeholders_witness :
    (⟨[], ["w"], ["g"], 3, 10⟩ : DiagnosticResult).strengths = []
    ∧ contentStrengthsText [] = "Building foundation"
    ∧ contentWeaknessesText [] = "None identified"
    ∧ (∃ x y, studyContentPrompt "Algebra" "beginner" [] []
        = x ++ "Building foundation" ++ y)
    ∧ planStrengthsText ⟨[], ["w"], ["g"], 3, 10⟩ = ""
    ∧ (∃ x y, studyPlanPrompt ⟨"c1", "Algebra", ["x"]⟩ "c1" ⟨[], ["w"], ["g"], 3, 10⟩
        = x ++ (planPromptC ++ planPromptD) ++ y) := by
  have h := content_prompt_substitutes_placeholders "Algebra" "beginner" []
      ⟨"c1", "Algebra", ["x"]⟩ "c1" ⟨[], ["w"], ["g"], 3, 10⟩ rfl
  exact ⟨rfl, h.1, h.2.1, h.2.2.1, h.2.2.2.1, h.2.2.2.2⟩

/-- C8 counterexample: a fenced response to the free-text explanation
operation is returned with the fences intact (only trimmed), not as the
fence-stripped cleaned text. -/
theorem freetext_ops_no_fence_strip_counterexample :
    generateChapterExplanation "c1" "fractions" "beginner"
        (.response true (some (String.toList "\x60\x60\x60json\nhi\n\x60\x60\x60")))
      = "\x60\x60\x60json\nhi\n\x60\x60\x60"
    ∧ String.mk (extractContent (String.toList "\x60\x60\x60json\nhi\n\x60\x60\x60")) = "hi"
    ∧ ("\x60\x60\x60json\nhi\n\x60\x60\x60" : String) ≠ "hi" :=
  ⟨rfl, rfl, by decide⟩

/-- C8 amended: on a successful endpoint response the free-text
operations return the raw content after whitespace trimming only; no
fence stripping and no structural parsing is applied. -/
theorem freetext_ops_return_trimmed_raw_content
    (chapterId topic studentLevel : String) (content : List Char) (r : ℚ)
    (hne : content ≠ []) :
    generateChapterExplanation chapterId topic studentLevel
        (.response true (some content)) = String.mk (trimChars content)
    ∧ generateSmartNotification (.response true (some content)) r
        = String.mk (trimChars content) := by
  constructor
  · simp [generateChapterExplanation, contentOf, hne]
  · simp [generateSmartNotification, contentOf, hne]

/-- Witness for the amended C8: the content " hi " is returned trimmed
to "hi" by both free-text operations. -/
theorem freetext_ops_return_trimmed_raw_content_witness :
    String.toList " hi " ≠ []
    ∧ generateChapterExplanation "c1" "fractions" "beginner"
        (.response true (some (String.toList " hi ")))
      = String.mk (trimChars (String.toList " hi "))
    ∧ generateSmartNotification (.response true (some (String.toList " hi "))) 0
      = String.mk (trimChars (String.toList " hi "))
    ∧ String.mk (trimChars (String.toList " hi ")) = "hi" := by
  have h := freetext_ops_return_trimmed_raw_content "c1" "fractions" "beginner"
      (String.toList " hi ") 0 (by decide)
  exact ⟨by decide, h.1, h.2, rfl⟩

/-! ## Whitespace and fence lemmas for the extraction round-trip (C5) -/

/-- A list whose head is not whitespace is unchanged by dropWhile. -/
theorem dropWhile_eq_self_of_head (l : List Char) (h : headIsWS l = false) :
    l.dropWhile isWS = l := by
  cases l with
  | nil => rfl
  | cons c t =>
    have hc : isWS c = false := h
    simp [List.dropWhile_cons, hc]

/-- The head left by dropWhile is not whitespace. -/
theorem headIsWS_dropWhile (l : List Char) : headIsWS (l.dropWhile isWS) = false := by
  induction l with
  | nil => rfl
  | cons c t ih =>
    cases hc : isWS c with
    | true => simpa [List.dropWhile_cons, hc] using ih
    | false => simp [List.dropWhile_cons, hc, headIsWS]

/-- The head of an append with a nonempty left part is its head. -/
theorem headIsWS_append (a b : List Char) (ha : a ≠ []) :
    headIsWS (a ++ b) = headIsWS a := by
  cases a with
  | nil => exact absurd rfl ha
  | cons c t => rfl

/-- Trimming is the identity when neither end is whitespace. -/
theorem trimChars_eq_self (l : List Char) (h1 : headIsWS l = false)
    (h2 : headIsWS l.reverse = false) : trimChars l = l := by
  unfold trimChars
  rw [dropWhile_eq_self_of_head l h1, dropWhile_eq_self_of_head l.reverse h2,
    List.reverse_reverse]

/-- The left-trimmed list splits as the trimmed core followed by
trailing whitespace. -/
theorem dropWhile_decomp_trim (l : List Char) :
    l.dropWhile isWS
      = trimChars l ++ ((l.dropWhile isWS).reverse.takeWhile isWS).reverse := by
  unfold trimChars
  conv_lhs => rw [← List.reverse_reverse (l.dropWhile isWS)]
  rw [← List.reverse_append, List.takeWhile_append_dropWhile]

/-- The head of the trimmed list is not whitespace. -/
theorem headNotWS_trimChars (l : List Char) : headIsWS (trimChars l) = false := by
  cases htl : trimChars l with
  | nil => rfl
  | cons c t =>
    have h1 := headIsWS_dropWhile l
    rw [dropWhile_decomp_trim l, htl] at h1
    rw [headIsWS_append _ _ (by simp)] at h1
    exact h1

/-- The last character of the trimmed list is not whitespace. -/
theorem lastNotWS_trimChars (l : List Char) : headIsWS (trimChars l).reverse = false := by
  unfold trimChars
  rw [List.reverse_reverse]
  exact headIsWS_dropWhile _

/-- Trimming is idempotent. -/
theorem trimChars_idem (l : List Char) : trimChars (trimChars l) = trimChars l :=
  trimChars_eq_self _ (headNotWS_trimChars l) (lastNotWS_trimChars l)

/-- Every list splits as leading whitespace, trimmed core, trailing
whitespace. -/
theorem trimChars_decomp (l : List Char) :
    ∃ a b, l = a ++ trimChars l ++ b
      ∧ (∀ c ∈ a, isWS c = true) ∧ (∀ c ∈ b, isWS c = true) := by
  refine ⟨l.takeWhile isWS, ((l.dropWhile isWS).reverse.takeWhile isWS).reverse, ?_, ?_, ?_⟩
  · conv_lhs => rw [← List.takeWhile_append_dropWhile isWS l, dropWhile_decomp_trim l]
    rw [List.append_assoc]
  · exact fun c hc => List.mem_takeWhile_imp hc
  · intro c hc
    rw [List.mem_reverse] at hc
    exact List.mem_takeWhile_imp hc

/-- Trimming a whitespace-padded core with clean ends recovers the core. -/
theorem trimChars_append_ws (q b : List Char) (hqh : headIsWS q = false)
    (hql : headIsWS q.reverse = false) (hq : q ≠ [])
    (hb : ∀ c ∈ b, isWS c = true) : trimChars (q ++ b) = q := by
  unfold trimChars
  rw [dropWhile_eq_self_of_head (q ++ b) (by rw [headIsWS_append _ _ hq]; exact hqh)]
  rw [List.reverse_append]
  rw [List.dropWhile_append_of_pos (fun c hc => hb c (List.mem_reverse.mp hc))]
  rw [dropWhile_eq_self_of_head _ hql, List.reverse_reverse]

/-- A `json`-tagged fence is consumed by the first replace. -/
theorem stripJsonFence_json_tag (rest : List Char) :
    stripJsonFence ('\x60' :: '\x60' :: '\x60' :: 'j' :: 's' :: 'o' :: 'n' :: rest)
      = rest.dropWhile isWS := rfl

/-- A bare fence followed by a newline is not touched by the first
replace (the fourth character is not a tag letter). -/
theorem stripJsonFence_newline_tag : ∀ (x : List Char),
    stripJsonFence ('\x60' :: '\x60' :: '\x60' :: '\n' :: x)
      = '\x60' :: '\x60' :: '\x60' :: '\n' :: x
  | [] => rfl
  | [_] => rfl
  | [_, _] => rfl
  | _ :: _ :: _ :: _ => rfl

/-- The first replace leaves any text that does not start with a
backtick unchanged. -/
theorem stripJsonFence_not_backtick (c : Char) (x : List Char)
    (hc : (c == '\x60') = false) : stripJsonFence (c :: x) = c :: x := by
  unfold stripJsonFence
  split
  · next heq =>
    exfalso
    injection heq with h1 _
    rw [h1] at hc
    simp at hc
  · rfl

/-- The second replace leaves any text that does not start with a
backtick unchanged. -/
theorem stripBareFence_not_backtick (c : Char) (x : List Char)
    (hc : (c == '\x60') = false) : stripBareFence (c :: x) = c :: x := by
  unfold stripBareFence
  split
  · next heq =>
    exfalso
    injection heq with h1 _
    rw [h1] at hc
    simp at hc
  · rfl

/-- The trailing replace removes a final fence. -/
theorem stripTrailingFence_fence (x : List Char) :
    stripTrailingFence (x ++ ['\x60', '\x60', '\x60']) = x := by
  unfold stripTrailingFence
  rw [List.reverse_append]
  exact List.reverse_reverse x

/-- The trailing replace leaves text without a final fence unchanged. -/
theorem stripTrailingFence_noop (l : List Char) (h : endsWithFence l = false) :
    stripTrailingFence l = l := by
  unfold stripTrailingFence
  split
  · next heq =>
    exfalso
    have ht : endsWithFence l = true := by
      unfold endsWithFence
      rw [heq]
      rfl
    rw [ht] at h
    simp at h
  · rfl

/-- Dropping leading whitespace from the payload plus closing fence
exposes the trimmed core. -/
theorem dropWhile_p_fence (p a b q : List Char)
    (hdec : p = a ++ q ++ b) (hwa : ∀ c ∈ a, isWS c = true)
    (hqh : headIsWS q = false) (hq : q ≠ []) :
    List.dropWhile isWS (p ++ ['\n', '\x60', '\x60', '\x60'])
      = q ++ (b ++ ['\n', '\x60', '\x60', '\x60']) := by
  have h1 : p ++ ['\n', '\x60', '\x60', '\x60']
      = a ++ (q ++ (b ++ ['\n', '\x60', '\x60', '\x60'])) := by
    rw [hdec]
    simp [List.append_assoc]
  rw [h1, List.dropWhile_append_of_pos hwa]
  exact dropWhile_eq_self_of_head _ (by rw [headIsWS_append _ _ hq]; exact hqh)

/-- Removing the closing fence and trimming recovers the trimmed core. -/
theorem tail_fence_trim (q b : List Char)
    (hqh : headIsWS q = false) (hql : headIsWS q.reverse = false) (hq : q ≠ [])
    (hwb : ∀ c ∈ b, isWS c = true) :
    trimChars (stripTrailingFence (q ++ (b ++ ['\n', '\x60', '\x60', '\x60']))) = q := by
  have h3 : q ++ (b ++ ['\n', '\x60', '\x60', '\x60'])
      = (q ++ (b ++ ['\n'])) ++ ['\x60', '\x60', '\x60'] := by
    simp [List.append_assoc]
  rw [h3, stripTrailingFence_fence]
  refine trimChars_append_ws q (b ++ ['\n']) hqh hql hq ?_
  intro x hx
  rcases List.mem_append.mp hx with hx | hx
  · exact hwb x hx
  · simp at hx
    rw [hx]
    rfl

/-- Extraction of a `json`-fenced payload yields the trimmed payload. -/
theorem extract_wrapJson (p : List Char)
    (hne : trimChars p ≠ []) (hhb : headIsBacktick (trimChars p) = false) :
    extractContent (wrapJsonFence p) = trimChars p := by
  obtain ⟨a, b, hdec, hwa, hwb⟩ := trimChars_decomp p
  obtain ⟨c, t, hct⟩ : ∃ c t, trimChars p = c :: t := by
    cases hq : trimChars p with
    | nil => exact absurd hq hne
    | cons c t => exact ⟨c, t, rfl⟩
  have hcbt : (c == '\x60') = false := by rw [hct] at hhb; exact hhb
  have hqh := headNotWS_trimChars p
  have hql := lastNotWS_trimChars p
  unfold extractContent
  have hrev : headIsWS (wrapJsonFence p).reverse = false := by
    have hw : wrapJsonFence p
        = ('\x60' :: '\x60' :: '\x60' :: 'j' :: 's' :: 'o' :: 'n' :: '\n'
            :: (p ++ ['\n', '\x60', '\x60'])) ++ ['\x60'] := by
      simp [wrapJsonFence]
    rw [hw, List.reverse_append]
    rfl
  rw [trimChars_eq_self (wrapJsonFence p) rfl hrev]
  rw [show stripJsonFence (wrapJsonFence p)
      = List.dropWhile isWS (p ++ ['\n', '\x60', '\x60', '\x60']) from rfl]
  rw [dropWhile_p_fence p a b (trimChars p) hdec hwa hqh hne]
  have hsb : stripBareFence (trimChars p ++ (b ++ ['\n', '\x60', '\x60', '\x60']))
      = trimChars p ++ (b ++ ['\n', '\x60', '\x60', '\x60']) := by
    rw [hct, List.cons_append]
    exact stripBareFence_not_backtick c _ hcbt
  rw [hsb]
  exact tail_fence_trim (trimChars p) b hqh hql hne hwb

/-- Extraction of a bare-fenced payload yields the trimmed payload. -/
theorem extract_wrapBare (p : List Char)
    (hne : trimChars p ≠ []) (hhb : headIsBacktick (trimChars p) = false) :
    extractContent (wrapBareFence p) = trimChars p := by
  obtain ⟨a, b, hdec, hwa, hwb⟩ := trimChars_decomp p
  have hqh := headNotWS_trimChars p
  have hql := lastNotWS_trimChars p
  unfold extractContent
  have hrev : headIsWS (wrapBareFence p).reverse = false := by
    have hw : wrapBareFence p
        = ('\x60' :: '\x60' :: '\x60' :: '\n' :: (p ++ ['\n', '\x60', '\x60'])) ++ ['\x60'] := by
      simp [wrapBareFence]
    rw [hw, List.reverse_append]
    rfl
  rw [trimChars_eq_self (wrapBareFence p) rfl hrev]
  rw [show wrapBareFence p
      = '\x60' :: '\x60' :: '\x60' :: '\n' :: (p ++ ['\n', '\x60', '\x60', '\x60']) from rfl]
  rw [stripJsonFence_newline_tag]
  rw [show stripBareFence
        ('\x60' :: '\x60' :: '\x60' :: '\n' :: (p ++ ['\n', '\x60', '\x60', '\x60']))
      = List.dropWhile isWS (p ++ ['\n', '\x60', '\x60', '\x60']) from rfl]
  rw [dropWhile_p_fence p a b (trimChars p) hdec hwa hqh hne]
  exact tail_fence_trim (trimChars p) b hqh hql hne hwb

/-- Extraction is the identity on trimmed text that neither starts with
a backtick nor ends with a fence. -/
theorem extract_of_trimmed (p : List Char)
    (hne : trimChars p ≠ []) (hhb : headIsBacktick (trimChars p) = false)
    (hef : endsWithFence (trimChars p) = false) :
    extractContent (trimChars p) = trimChars p := by
  obtain ⟨c, t, hct⟩ : ∃ c t, trimChars p = c :: t := by
    cases hq : trimChars p with
    | nil => exact absurd hq hne
    | cons c t => exact ⟨c, t, rfl⟩
  have hcbt : (c == '\x60') = false := by rw [hct] at hhb; exact hhb
  unfold extractContent
  rw [trimChars_idem]
  have hsj : stripJsonFence (trimChars p) = trimChars p := by
    rw [hct]
    exact stripJsonFence_not_backtick c t hcbt
  rw [hsj]
  have hsb : stripBareFence (trimChars p) = trimChars p := by
    rw [hct]
    exact stripBareFence_not_backtick c t hcbt
  rw [hsb]
  rw [stripTrailingFence_noop _ hef]
  exact trimChars_idem p

/-- C5 counterexample: the extraction step handles only the `json`
language tag; wrapping a payload in a fence with another language tag
(here `python`) leaves the tag text in place, so the extracted content
does not parse to the same structured result as the unwrapped payload. -/
theorem fence_language_tag_not_stripped :
    String.mk (extractContent (String.toList "\x60\x60\x60python\n\x7b\x7d\n\x60\x60\x60"))
      = "python\n\x7b\x7d"
    ∧ parseJson (extractContent (String.toList "\x60\x60\x60python\n\x7b\x7d\n\x60\x60\x60"))
      = none
    ∧ parseJson (String.toList "\x7b\x7d") = some (Json.obj []) :=
  ⟨rfl, rfl, rfl⟩

/-- C5 amended: extraction trims surrounding whitespace and strips a
leading fence that is bare or tagged exactly `json` (case-insensitive)
plus a trailing fence.  For every payload whose trimmed form is
nonempty, does not start with a backtick, and does not end in a fence,
wrapping it in a `json`-tagged or bare fence and extracting yields
exactly the trimmed payload — hence it parses to the same structured
result as the unwrapped payload — and extraction is idempotent on the
extracted text. -/
theorem fence_stripping_roundtrip (p : List Char)
    (hne : trimChars p ≠ [])
    (hhb : headIsBacktick (trimChars p) = false)
    (hef : endsWithFence (trimChars p) = false) :
    extractContent (wrapJsonFence p) = trimChars p
    ∧ extractContent (wrapBareFence p) = trimChars p
    ∧ parseJson (extractContent (wrapJsonFence p)) = parseJson p
    ∧ extractContent (extractContent (wrapJsonFence p))
        = extractContent (wrapJsonFence p) := by
  have h1 := extract_wrapJson p hne hhb
  have h2 := extract_wrapBare p hne hhb
  refine ⟨h1, h2, ?_, ?_⟩
  · rw [h1]
    simp only [parseJson, trimChars_idem]
  · rw [h1]
    exact extract_of_trimmed p hne hhb hef

/-- Witness for the amended C5 at the payload `{"a": 1}`. -/
theorem fence_stripping_roundtrip_witness :
    trimChars (String.toList "\x7b\"a\": 1\x7d") ≠ []
    ∧ headIsBacktick (trimChars (String.toList "\x7b\"a\": 1\x7d")) = false
    ∧ endsWithFence (trimChars (String.toList "\x7b\"a\": 1\x7d")) = false
    ∧ (extractContent (wrapJsonFence (String.toList "\x7b\"a\": 1\x7d"))
          = trimChars (String.toList "\x7b\"a\": 1\x7d")
        ∧ extractContent (wrapBareFence (String.toList "\x7b\"a\": 1\x7d"))
          = trimChars (String.toList "\x7b\"a\": 1\x7d")
        ∧ parseJson (extractContent (wrapJsonFence (String.toList "\x7b\"a\": 1\x7d")))
          = parseJson (String.toList "\x7b\"a\": 1\x7d")
        ∧ extractContent (extractContent (wrapJsonFence (String.toList "\x7b\"a\": 1\x7d")))
          = extractContent (wrapJsonFence (String.toList "\x7b\"a\": 1\x7d"))) :=
  ⟨by decide, rfl, rfl,
    fence_stripping_roundtrip (String.toList "\x7b\"a\": 1\x7d") (by decide) rfl rfl⟩

end StudyPlanService
